import Mathlib

/-!
Verification development for the Reader-V1 repository: a browser e-reader with
comic (cbz), pdf and epub backends, an AI panel-detection client, and a
reading-session controller (the ReaderView component). The definitions below
are a shallow embedding of the TypeScript sources:
  - the panel-detection client getPanelsForPage (geminiService);
  - the comic archive service: getSortedImageFiles, getComicPages and the
    comic branch of createLibraryItem (bookService);
  - the reading-session controller: its state, loadBook, handleDetectPanels,
    the detection continuation, goToNext, goToPrev, handleZoom,
    toggleFitToScreen and the footer view-mode buttons (ReaderView).
JavaScript numbers that the program produces are exactly representable
binary fractions (multiples of 0.25 inside [0.25, 5], and JSON numerics kept
abstract), so they are embedded as rationals.
-/

namespace Reader

/-- A detected panel: the four numeric fields of one element of the
detection response. The source keeps the whole JSON object; the program only
ever reads these four fields, so the embedding projects to them. -/
structure Panel where
  x : ℚ
  y : ℚ
  width : ℚ
  height : ℚ
deriving DecidableEq, Repr

/-- `fallbackPanel` from geminiService: the single synthetic whole-page panel. -/
def fallbackPanel : List Panel := [⟨0, 0, 100, 100⟩]

/-- JSON values, as produced by JSON.parse of the detection response body. -/
inductive Json
  | jnull
  | jbool (b : Bool)
  | jnum (q : ℚ)
  | jstr (s : String)
  | jarr (elems : List Json)
  | jobj (fields : List (String × Json))

/-- Substring test on character lists: JavaScript String.prototype.includes. -/
def listContainsSub (needle : List Char) : List Char → Bool
  | [] => needle.isEmpty
  | c :: rest => needle.isPrefixOf (c :: rest) || listContainsSub needle rest

/-- `hay.includes(needle)` on strings. -/
def strContains (hay needle : String) : Bool :=
  listContainsSub needle.data hay.data

/-- The rate-limit message thrown by getPanelsForPage when the stringified
provider error contains RESOURCE_EXHAUSTED or 429. -/
def rateLimitMessage : String :=
  "Limite de requisições atingido. A detecção de painel foi pausada. Tente novamente em alguns instantes."

/-- The generic failure message thrown by getPanelsForPage for all other
errors caught in its catch block. -/
def genericFailureMessage : String :=
  "Não foi possível detectar os painéis da página."

/-- The catch block of getPanelsForPage: stringify the error and pick the
message. The argument is the JSON.stringify of the raised error. -/
def classifyApiError (e : String) : String :=
  if strContains e "RESOURCE_EXHAUSTED" || strContains e "429" then rateLimitMessage
  else genericFailureMessage

/-- Field lookup in a parsed JSON object (property access on the element). -/
def lookupField (fields : List (String × Json)) (k : String) : Option Json :=
  (fields.find? (fun p => p.1 == k)).map (fun p => p.2)

/-- The numeric value of a field access result, when the accessed property
holds a number (typeof gives number exactly then). -/
def getNum : Option Json → Option ℚ
  | some (.jnum q) => some q
  | _ => none

/-- One conjunct `typeof p.f === 'number'` of the element filter. -/
def isNumField (fields : List (String × Json)) (k : String) : Bool :=
  (getNum (lookupField fields k)).isSome

/-- The filter predicate of getPanelsForPage: all four of x, y, width, height
are present and numeric. Property access on a null element throws instead;
that case is handled separately in `getPanelsForPage`. -/
def validPanelElem : Json → Bool
  | .jobj fields =>
    isNumField fields "x" && isNumField fields "y" &&
      isNumField fields "width" && isNumField fields "height"
  | _ => false

/-- Projection of a valid element to its four numeric fields. Returns none
exactly when the element fails the filter predicate. -/
def extractPanel : Json → Option Panel
  | .jobj fields =>
    match getNum (lookupField fields "x"), getNum (lookupField fields "y"),
          getNum (lookupField fields "width"), getNum (lookupField fields "height") with
    | some a, some b, some w, some h => some ⟨a, b, w, h⟩
    | _, _, _, _ => none
  | _ => none

/-- `isNull` identifies the JSON null element: property access on it inside
the filter callback raises a TypeError in the source. -/
def isNull : Json → Bool
  | .jnull => true
  | _ => false

/-- The detection response as seen after the await of generateContent:
either the provider call rejected (with a stringified error), or it yielded
a text body that trims to empty, fails JSON.parse, or parses to a value. -/
inductive ResponseBody
  | blank
  | malformed
  | parsed (j : Json)

inductive DetectResponse
  | apiError (e : String)
  | body (b : ResponseBody)

/-- getPanelsForPage from geminiService, as a function of the response.
An apiError rejection is caught and classified. A blank trimmed body returns
the fallback before parsing. A malformed body makes JSON.parse throw a
SyntaxError; JSON.stringify of such an error is "\x7b\x7d" (Error own
properties are non-enumerable), which contains no rate-limit marker, so the
catch rethrows the generic message. A parsed non-array or empty array yields
the fallback. In an array, a null element makes the filter callback throw a
TypeError (again rethrown as the generic message); otherwise the elements
passing the numeric-field check are kept in order, and the fallback is
returned when none passes. -/
def getPanelsForPage (r : DetectResponse) : Except String (List Panel) :=
  match r with
  | .apiError e => .error (classifyApiError e)
  | .body .blank => .ok fallbackPanel
  | .body .malformed => .error genericFailureMessage
  | .body (.parsed (.jarr xs)) =>
    if xs.isEmpty then .ok fallbackPanel
    else if xs.any isNull then .error genericFailureMessage
    else
      let valid := xs.filterMap extractPanel
      .ok (if 0 < valid.length then valid else fallbackPanel)
  | .body (.parsed _) => .ok fallbackPanel

/-! ## Archive service (bookService) -/

/-- ASCII lower-casing of one character (String.prototype.toLowerCase on the
ASCII file names the archive code handles). -/
def lowerChar (c : Char) : Char :=
  if 'A' ≤ c ∧ c ≤ 'Z' then Char.ofNat (c.toNat + 32) else c

/-- Lower-case a character list. -/
def lowerChars (cs : List Char) : List Char := cs.map lowerChar

/-- JavaScript split on the dot character, on character lists. -/
def splitDots : List Char → List (List Char)
  | [] => [[]]
  | c :: cs =>
    if c = '.' then [] :: splitDots cs
    else
      match splitDots cs with
      | [] => [[c]]
      | h :: t => (c :: h) :: t

/-- Rejoin dot-separated pieces (used by the title computation). -/
def joinDots : List (List Char) → List Char
  | [] => []
  | [p] => p
  | p :: ps => p ++ '.' :: joinDots ps

/-- getFileExtension from bookService: the lower-cased last dot-separated
piece of the file name (the whole name when there is no dot, matching
split('.').pop()). -/
def getFileExtension (filename : String) : String :=
  ⟨lowerChars ((splitDots filename.data).getLastD [])⟩

/-- The title computation of createLibraryItem: drop a final dot-extension
(non-empty, containing neither a dot nor a slash), otherwise keep the name. -/
def stripExtension (name : String) : String :=
  let parts := splitDots name.data
  if parts.length ≤ 1 then name
  else
    let lastPart := parts.getLastD []
    if lastPart ≠ [] ∧ ¬ lastPart.contains '/' then ⟨joinDots parts.dropLast⟩
    else name

/-- One entry of the loaded zip archive. `decodes` records whether the
browser Image load of the extracted blob succeeds (img.onload versus
img.onerror); `width` and `height` are the natural dimensions on success. -/
structure ZipEntry where
  name : String
  dir : Bool
  decodes : Bool
  width : ℕ
  height : ℕ
deriving DecidableEq, Repr

/-- The image-name test of getSortedImageFiles: the case-insensitive
suffix regex over jpg, jpeg, png, gif, webp. -/
def isImageName (name : String) : Bool :=
  let l := lowerChars name.data
  (".jpg".data).isSuffixOf l || (".jpeg".data).isSuffixOf l ||
    (".png".data).isSuffixOf l || (".gif".data).isSuffixOf l ||
    (".webp".data).isSuffixOf l

/-- Stable insertion of one element after all elements le-below-or-equal it. -/
def insertOrd {α : Type} (le : α → α → Bool) (a : α) : List α → List α
  | [] => [a]
  | b :: bs => if le b a then b :: insertOrd le a bs else a :: b :: bs

/-- Stable sort by a boolean comparator. Array.prototype.sort with a
consistent comparator is exactly the stable sort by that comparator, so any
stable sorting algorithm embeds it faithfully. -/
def sortBy {α : Type} (le : α → α → Bool) (l : List α) : List α :=
  l.foldl (fun acc a => insertOrd le a acc) []

/-- A token of the numeric-aware comparison: a maximal digit run, taken by
value, or a single other character. -/
inductive NameTok
  | numTok (v : ℕ)
  | charTok (c : Char)

/-- Numeric value of a digit run. -/
def digitsVal (ds : List Char) : ℕ :=
  ds.foldl (fun a c => a * 10 + (c.toNat - 48)) 0

/-- Tokenizer for the numeric-aware comparison; the fuel argument is the
length of the input, and every step consumes at least one character. -/
def tokenizeAux : ℕ → List Char → List NameTok
  | 0, _ => []
  | _ + 1, [] => []
  | fuel + 1, c :: cs =>
    if c.isDigit then
      NameTok.numTok (digitsVal ((c :: cs).takeWhile Char.isDigit)) ::
        tokenizeAux fuel ((c :: cs).dropWhile Char.isDigit)
    else
      NameTok.charTok c :: tokenizeAux fuel cs

def tokenize (cs : List Char) : List NameTok := tokenizeAux cs.length cs

def cmpTok : NameTok → NameTok → Ordering
  | .numTok a, .numTok b => compare a b
  | .numTok _, .charTok _ => .lt
  | .charTok _, .numTok _ => .gt
  | .charTok a, .charTok b => compare a.toNat b.toNat

def cmpToks : List NameTok → List NameTok → Ordering
  | [], [] => .eq
  | [], _ :: _ => .lt
  | _ :: _, [] => .gt
  | a :: as, b :: bs =>
    match cmpTok a b with
    | .eq => cmpToks as bs
    | o => o

/-- The comparator a.name.localeCompare(b.name, undefined, with the numeric
option) of getSortedImageFiles, embedded for ASCII names: digit runs compare
by numeric value, other characters by code point. The collation fine points
(case folding of the root locale, digit-length tie breaking) are
approximated; no theorem below depends on them — only on the fact that both
getComicPages and createLibraryItem sort with the same comparator. -/
def naturalLe (a b : String) : Bool :=
  match cmpToks (tokenize a.data) (tokenize b.data) with
  | .gt => false
  | _ => true

/-- getSortedImageFiles from bookService: non-directory entries whose name
matches the image regex, sorted by the numeric-aware name comparison. -/
def getSortedImageFiles (entries : List ZipEntry) : List ZipEntry :=
  sortBy (fun a b => naturalLe a.name b.name)
    (entries.filter (fun f => !f.dir && isImageName f.name))

/-- One page of the reading session, as built by getComicPages:
id is the archive entry name, dimensions are the decoded natural size. -/
structure ComicPage where
  id : String
  width : ℕ
  height : ℕ
deriving DecidableEq, Repr

def toComicPage (e : ZipEntry) : ComicPage := ⟨e.name, e.width, e.height⟩

/-- getComicPages from bookService: decode every sorted image entry; an
entry whose Image load fails maps to null and is filtered out, silently
dropping it from the page list. -/
def getComicPages (entries : List ZipEntry) : List ComicPage :=
  (getSortedImageFiles entries).filterMap
    (fun e => if e.decodes then some (toComicPage e) else none)

/-- A file handed to createLibraryItem: name, byte size, and (for comic
archives) its zip entries. -/
structure ArchiveFile where
  name : String
  size : ℕ
  entries : List ZipEntry
deriving DecidableEq, Repr

/-- The persisted library record (fields relevant to the archive claims;
the cover data URL and the File object are browser values kept out of the
embedding). -/
structure LibraryItem where
  id : String
  title : String
  totalPages : ℕ
deriving DecidableEq, Repr

/-- The comic-archive branch of createLibraryItem from bookService: accepts
only the cbz extension, derives the id from name and size, strips the
extension for the title, and counts totalPages as the number of matching
image entries without attempting to decode any of them. The epub and pdf
branches do not touch the archive page list and are outside the claims. -/
def createLibraryItem (f : ArchiveFile) : Option LibraryItem :=
  if getFileExtension f.name = "cbz" then
    some { id := f.name ++ "-" ++ toString f.size,
           title := stripExtension f.name,
           totalPages := (getSortedImageFiles f.entries).length }
  else none

/-! ## Reading-session controller (ReaderView) -/

inductive ViewMode
  | page
  | panel
deriving DecidableEq, Repr

inductive BookType
  | cbz
  | pdf
  | epub
deriving DecidableEq, Repr

def MIN_ZOOM : ℚ := 1/4
def MAX_ZOOM : ℚ := 5
def ZOOM_STEP : ℚ := 1/4

/-- The state of the ReaderView component. `pageIds` are the ids of the
loaded comic pages (empty for pdf and epub); `docPages` is the loaded page
count of a pdf or epub backend. `pending` is the multiset of captured page
identities of in-flight detection requests (the un-resolved continuations of
handleDetectPanels), and `requests` is a ghost log of every detection
request issued, used only to count requests; neither affects any transition
guard of the source. -/
structure ReaderState where
  bookType : BookType
  pageIds : List String
  docPages : ℕ
  pageIndex : ℕ
  panelIndex : ℤ
  viewMode : ViewMode
  panels : List Panel
  cache : List (String × List Panel)
  zoom : ℚ
  fit : Bool
  busy : Bool
  errorMsg : Option String
  pending : List String
  requests : List String
deriving DecidableEq, Repr

/-- The totalPages memo of ReaderView: comic pages length for cbz, the
loaded document page count otherwise. -/
def totalPages (s : ReaderState) : ℕ :=
  match s.bookType with
  | .cbz => s.pageIds.length
  | _ => s.docPages

/-- Lookup in the panelsCache record object. -/
def cacheLookup (c : List (String × List Panel)) (k : String) : Option (List Panel) :=
  (c.find? (fun p => p.1 == k)).map (fun p => p.2)

/-- The spread update of the panelsCache record object: the new binding
shadows any previous one. -/
def cacheInsert (c : List (String × List Panel)) (k : String) (v : List Panel) :
    List (String × List Panel) :=
  (k, v) :: c

/-- The loadBook effect body of ReaderView, up to its successful completion:
it resets the content and navigation state for the new book — comic pages,
pdf document, page index, panels cache, panels, view mode, zoom, fit and the
error — and then loads the new backend. It does not touch currentPanelIndex,
the detection-busy flag, or any in-flight detection continuation. For a cbz
book `ids` are the decoded page ids; for pdf and epub the comic page list
stays empty and `n` is the loaded page count. -/
def loadBook (s : ReaderState) (bt : BookType) (ids : List String) (n : ℕ) : ReaderState :=
  { s with bookType := bt,
           pageIds := if bt = .cbz then ids else [],
           docPages := if bt = .cbz then 0 else n,
           pageIndex := 0,
           cache := [],
           panels := [],
           viewMode := .page,
           zoom := 1,
           fit := true,
           errorMsg := none }

/-- handleDetectPanels from ReaderView, up to the await of the detection
call: returns unchanged for a non-cbz book, an empty page list, or an
out-of-range current page; on a cache hit it synchronously applies the
cached list and switches to panel view; on a cache miss it marks the
detection busy, clears the error, and issues a request that captures the
current page identity (the resolution is `resolveDetection`). The image
downscaling step is assumed to succeed: the page image already decoded
during loading. -/
def handleDetectPanels (s : ReaderState) : ReaderState :=
  if s.bookType ≠ .cbz ∨ s.pageIds.length = 0 then s
  else
    match s.pageIds.get? s.pageIndex with
    | none => s
    | some pid =>
      match cacheLookup s.cache pid with
      | some ps => { s with panels := ps, viewMode := .panel, panelIndex := 0 }
      | none =>
        { s with busy := true,
                 errorMsg := none,
                 pending := s.pending ++ [pid],
                 requests := s.requests ++ [pid] }

/-- The message used by the catch of handleDetectPanels when the thrown
error carries an empty message. -/
def defaultDetectError : String := "Could not detect panels for this page."

/-- The outcome carried by a resolving detection continuation. -/
inductive DetectOutcome
  | success (ps : List Panel)
  | failure (msg : String)

/-- The continuation of handleDetectPanels after the awaited detection call
settles, for the request that captured page identity `pid`. On a non-empty
result it applies the panels, writes the cache entry under the captured
identity, and switches to panel view; an empty result is thrown and caught;
a failure surfaces the message and forces page view. The finally clause
clears the busy flag. No part of the continuation compares the captured
identity with the current page or document. -/
def resolveDetection (s : ReaderState) (pid : String) (o : DetectOutcome) : ReaderState :=
  match o with
  | .success ps =>
    if 0 < ps.length then
      { s with pending := s.pending.erase pid,
               busy := false,
               panels := ps,
               cache := cacheInsert s.cache pid ps,
               viewMode := .panel,
               panelIndex := 0 }
    else
      { s with pending := s.pending.erase pid,
               busy := false,
               errorMsg := some "No panels were detected on this page.",
               viewMode := .page }
  | .failure msg =>
      { s with pending := s.pending.erase pid,
               busy := false,
               errorMsg := some (if msg = "" then defaultDetectError else msg),
               viewMode := .page }

/-- Bridge from the detection client to the continuation outcome. -/
def outcomeOfResponse (r : DetectResponse) : DetectOutcome :=
  match getPanelsForPage r with
  | .ok ps => .success ps
  | .error m => .failure m

/-- goToNext from ReaderView. In panel view before the last panel it only
advances the panel; otherwise, before the last page, it advances the page,
clears the panels and panel index, and (except for epub, whose view mode
never leaves page anyway) resets the view mode. -/
def goToNext (s : ReaderState) : ReaderState :=
  if s.viewMode = .panel ∧ s.panelIndex < (s.panels.length : ℤ) - 1 then
    { s with panelIndex := s.panelIndex + 1 }
  else if (s.pageIndex : ℤ) < (totalPages s : ℤ) - 1 then
    { s with pageIndex := s.pageIndex + 1,
             panels := [],
             panelIndex := -1,
             viewMode := if s.bookType = .epub then s.viewMode else .page }
  else s

/-- goToPrev from ReaderView, mirror of `goToNext`. -/
def goToPrev (s : ReaderState) : ReaderState :=
  if s.viewMode = .panel ∧ 0 < s.panelIndex then
    { s with panelIndex := s.panelIndex - 1 }
  else if 0 < s.pageIndex then
    { s with pageIndex := s.pageIndex - 1,
             panels := [],
             panelIndex := -1,
             viewMode := if s.bookType = .epub then s.viewMode else .page }
  else s

inductive ZoomDir
  | inDir
  | outDir
deriving DecidableEq, Repr

/-- handleZoom from ReaderView: leave fit mode and move the zoom one step,
clamped between MIN_ZOOM and MAX_ZOOM. -/
def handleZoom (d : ZoomDir) (s : ReaderState) : ReaderState :=
  { s with fit := false,
           zoom := max MIN_ZOOM (min MAX_ZOOM
             (if d = ZoomDir.inDir then s.zoom + ZOOM_STEP else s.zoom - ZOOM_STEP)) }

/-- toggleFitToScreen from ReaderView: flip the fit flag; the zoom reset is
guarded by the pre-toggle value of isFitToScreen, so it fires exactly when
fit was off before the click, that is when the flip turns fit on. -/
def toggleFitToScreen (s : ReaderState) : ReaderState :=
  let s1 := { s with fit := !s.fit }
  if !s.fit then { s1 with zoom := 1 } else s1

/-- The page-view footer button: full page view. -/
def pageViewClick (s : ReaderState) : ReaderState :=
  { s with viewMode := .page, panelIndex := -1 }

/-- The panel-view footer button: switch to panel view when panels are
loaded, else fall through to handleDetectPanels. This path is not guarded by
the detection-busy flag. -/
def panelViewClick (s : ReaderState) : ReaderState :=
  if 0 < s.panels.length then { s with viewMode := .panel, panelIndex := 0 }
  else handleDetectPanels s

/-- The user and environment events of one reading session. `openDoc` is the
book prop changing (the loadBook effect re-runs); `resolve` is an in-flight
detection continuation settling with an outcome. -/
inductive Event
  | openDoc (bt : BookType) (ids : List String) (n : ℕ)
  | next
  | prev
  | detectClick
  | panelViewBtn
  | pageViewBtn
  | zoomBtn (d : ZoomDir)
  | fitBtn
  | resolve (pid : String) (o : DetectOutcome)

/-- One controller step. The detect button is disabled while a detection is
running; the panel and page view buttons are rendered for cbz books only;
the zoom and fit buttons are rendered for non-epub books only; a resolve
event fires only for a continuation that is actually in flight. -/
def step (s : ReaderState) (e : Event) : ReaderState :=
  match e with
  | .openDoc bt ids n => loadBook s bt ids n
  | .next => goToNext s
  | .prev => goToPrev s
  | .detectClick => if s.busy then s else handleDetectPanels s
  | .panelViewBtn => if s.bookType = .cbz then panelViewClick s else s
  | .pageViewBtn => if s.bookType = .cbz then pageViewClick s else s
  | .zoomBtn d => if s.bookType = .epub then s else handleZoom d s
  | .fitBtn => if s.bookType = .epub then s else toggleFitToScreen s
  | .resolve pid o => if s.pending.contains pid then resolveDetection s pid o else s

def run (s : ReaderState) (es : List Event) : ReaderState := es.foldl step s

/-- The mount-time state of ReaderView: the useState initial values. Every
session trace then begins with an openDoc event (the loadBook effect). -/
def initState : ReaderState :=
  { bookType := .cbz,
    pageIds := [],
    docPages := 0,
    pageIndex := 0,
    panelIndex := -1,
    viewMode := .page,
    panels := [],
    cache := [],
    zoom := 1,
    fit := true,
    busy := false,
    errorMsg := none,
    pending := [],
    requests := [] }

/-! ## Concrete sessions used by the claim theorems -/

/-- Open a one-page comic, run a successful detection (blank response, so
the fallback panel), then open a second comic while in panel view. -/
def c1Trace : List Event :=
  [ .openDoc .cbz ["pageA"] 1,
    .detectClick,
    .resolve "pageA" (outcomeOfResponse (.body .blank)),
    .openDoc .cbz ["pageB"] 1 ]

/-- Open a one-page comic, start a detection, open a second comic while the
request is in flight, and let the stale continuation resolve. The first
three events only: the state just after the second open. -/
def c2Trace : List Event :=
  [ .openDoc .cbz ["a1"] 1,
    .detectClick,
    .openDoc .cbz ["b1"] 1,
    .resolve "a1" (outcomeOfResponse (.body .blank)) ]

/-- A session ending in panel view on a cached page. -/
def c3Trace : List Event :=
  [ .openDoc .cbz ["p1"] 1,
    .detectClick,
    .resolve "p1" (.success fallbackPanel) ]

def c3Prior : ReaderState := run initState c3Trace

/-- A pdf session state with fit off and the zoom at 2: reached from a
fresh pdf session by pressing zoom-in four times. -/
def c4State : ReaderState :=
  { initState with bookType := .pdf, docPages := 3, fit := false, zoom := 2 }

/-- Open a one-page comic, run a detection that fails (generic provider
error), then press detect again for the same page. -/
def c7Trace : List Event :=
  [ .openDoc .cbz ["p1"] 1,
    .detectClick,
    .resolve "p1" (outcomeOfResponse (.apiError "quota")),
    .detectClick ]

/-! ## Claim theorems -/

/-- Claim C1, refuted on the code: the Navigation-State invariant
(viewMode = page exactly when panelIndex = -1) fails on a reachable state.
After a successful detection puts the session in panel view with
panelIndex = 0, opening a second document runs the loadBook reset, which
sets viewMode back to page but never touches currentPanelIndex; the
resulting state has viewMode = page and panelIndex = 0. -/
theorem c1_invariant_fails_after_second_open :
    (run initState c1Trace).viewMode = ViewMode.page ∧
    (run initState c1Trace).panelIndex = 0 ∧
    (run initState c1Trace).panelIndex ≠ -1 := by decide

/-- Claim C2, counterexample: opening a second document while a detection
for the first is pending does not make the resolution a no-op. Just after
the second open the state is in page view with an empty cache; when the
stale continuation then resolves, it switches the second document to panel
view, installs the first document panels, and writes a cache entry under
the captured (first-document) page identity. -/
theorem c2_counterexample :
    (run initState (c2Trace.take 3)).viewMode = ViewMode.page ∧
    (run initState (c2Trace.take 3)).cache = [] ∧
    (run initState (c2Trace.take 3)).pageIds = ["b1"] ∧
    (run initState c2Trace).viewMode = ViewMode.panel ∧
    (run initState c2Trace).panelIndex = 0 ∧
    (run initState c2Trace).panels = fallbackPanel ∧
    cacheLookup (run initState c2Trace).cache "a1" = some fallbackPanel := by decide

/-- Claim C3, refuted on the code: the loadBook reset does clear the cache
and reset pageIndex, viewMode, zoom, fit and the panels, but it leaves
panelIndex at its prior value instead of resetting it to -1. Evaluated at a
reachable prior state in panel view with panelIndex = 0. -/
theorem c3_loadBook_keeps_panelIndex :
    c3Prior.panelIndex = 0 ∧
    c3Prior.cache ≠ [] ∧
    (loadBook c3Prior .cbz ["q1"] 1).pageIndex = 0 ∧
    (loadBook c3Prior .cbz ["q1"] 1).cache = [] ∧
    (loadBook c3Prior .cbz ["q1"] 1).panels = [] ∧
    (loadBook c3Prior .cbz ["q1"] 1).viewMode = ViewMode.page ∧
    (loadBook c3Prior .cbz ["q1"] 1).zoom = 1 ∧
    (loadBook c3Prior .cbz ["q1"] 1).fit = true ∧
    (loadBook c3Prior .cbz ["q1"] 1).panelIndex = 0 := by decide

/-- Claim C4, counterexample: at a state with fit off and zoom 2 (reached
from a fresh pdf session by four zoom-in presses), toggleFitToScreen turns
fit on and resets the zoom to 1 — the claim says a flip that turns fit on
leaves the zoom unchanged, and that only a flip turning fit off resets it. -/
theorem c4_counterexample :
    c4State.fit = false ∧ c4State.zoom = 2 ∧
    (toggleFitToScreen c4State).fit = true ∧
    (toggleFitToScreen c4State).zoom = 1 ∧
    (toggleFitToScreen c4State).zoom ≠ c4State.zoom := by decide

/-- Claim C7, counterexample: a failed detection leaves no cache entry, so a
second detectPanels call for the same page issues a second request — the
request log for the one-page session holds the same page identity twice,
violating both the per-page at-most-one-request bound and the twice-in-a-row
bound as stated. -/
theorem c7_counterexample :
    cacheLookup (run initState (c7Trace.take 3)).cache "p1" = none ∧
    (run initState (c7Trace.take 3)).busy = false ∧
    (run initState c7Trace).requests = ["p1", "p1"] := by decide

/-- Claim C2, amended: the detection continuation applies its result
unconditionally. For every state with the request in flight and a non-empty
result, the resolution switches to panel view with panelIndex 0, installs
the result as the current panels, and writes the cache entry under the
captured page identity — whatever the current document and page are (the
captured identity is used only as the cache key, never compared with the
live state). -/
theorem c2_resolution_applies_unconditionally (s : ReaderState) (pid : String)
    (ps : List Panel) (hmem : s.pending.contains pid = true) (hps : 0 < ps.length) :
    (step s (.resolve pid (.success ps))).viewMode = ViewMode.panel ∧
    (step s (.resolve pid (.success ps))).panelIndex = 0 ∧
    (step s (.resolve pid (.success ps))).panels = ps ∧
    cacheLookup (step s (.resolve pid (.success ps))).cache pid = some ps ∧
    (step s (.resolve pid (.success ps))).pageIds = s.pageIds ∧
    (step s (.resolve pid (.success ps))).pageIndex = s.pageIndex := by
  have hstep : step s (.resolve pid (.success ps)) = resolveDetection s pid (.success ps) := by
    simp only [step]
    rw [if_pos hmem]
  rw [hstep]
  simp only [resolveDetection]
  rw [if_pos hps]
  refine ⟨rfl, rfl, rfl, ?_, rfl, rfl⟩
  simp [cacheLookup, cacheInsert]

def c2WitState : ReaderState :=
  { initState with bookType := .cbz, pageIds := ["w1"], busy := true, pending := ["w0"] }

theorem c2_amended_witness :
    (step c2WitState (.resolve "w0" (.success fallbackPanel))).viewMode = ViewMode.panel :=
  (c2_resolution_applies_unconditionally c2WitState "w0" fallbackPanel (by decide)
    (by decide)).1

/-- Claim C4, amended: toggleFitToScreen flips the fit flag; a flip that
turns fit on (fit was off before the click) resets the zoom to 1, and a
flip that turns fit off leaves the zoom unchanged. -/
theorem c4_toggleFit_resets_zoom_on_turning_fit_on (s : ReaderState) :
    (toggleFitToScreen s).fit = !s.fit ∧
    (s.fit = true → (toggleFitToScreen s).zoom = s.zoom) ∧
    (s.fit = false → (toggleFitToScreen s).zoom = 1) := by
  unfold toggleFitToScreen
  cases h : s.fit <;> simp [h]

theorem c4_amended_witness : (toggleFitToScreen c4State).zoom = 1 :=
  (c4_toggleFit_resets_zoom_on_turning_fit_on c4State).2.2 rfl

/-- Claim C6: a detection failure is classified by the rate-limit markers —
a stringified error containing RESOURCE_EXHAUSTED or 429 surfaces the
distinct retry-later message, any other the single generic message — and
the failing resolution only surfaces that message: view mode stays page,
and the panel index, page index, cache (in particular: no entry for the
requested page), panels, zoom and fit are untouched. -/
theorem c6_failure_classified_and_state_preserved (s : ReaderState) (pid : String)
    (e : String) (hmem : s.pending.contains pid = true)
    (hvm : s.viewMode = ViewMode.page) :
    (step s (.resolve pid (outcomeOfResponse (.apiError e)))).viewMode = s.viewMode ∧
    (step s (.resolve pid (outcomeOfResponse (.apiError e)))).panelIndex = s.panelIndex ∧
    (step s (.resolve pid (outcomeOfResponse (.apiError e)))).pageIndex = s.pageIndex ∧
    (step s (.resolve pid (outcomeOfResponse (.apiError e)))).cache = s.cache ∧
    (step s (.resolve pid (outcomeOfResponse (.apiError e)))).panels = s.panels ∧
    (step s (.resolve pid (outcomeOfResponse (.apiError e)))).zoom = s.zoom ∧
    (step s (.resolve pid (outcomeOfResponse (.apiError e)))).fit = s.fit ∧
    (step s (.resolve pid (outcomeOfResponse (.apiError e)))).errorMsg =
      some (classifyApiError e) ∧
    ((strContains e "RESOURCE_EXHAUSTED" || strContains e "429") = true →
      classifyApiError e = rateLimitMessage) ∧
    ((strContains e "RESOURCE_EXHAUSTED" || strContains e "429") = false →
      classifyApiError e = genericFailureMessage) ∧
    rateLimitMessage ≠ genericFailureMessage := by
  have hstep : step s (.resolve pid (outcomeOfResponse (.apiError e))) =
      resolveDetection s pid (.failure (classifyApiError e)) := by
    simp only [step, outcomeOfResponse, getPanelsForPage]
    rw [if_pos hmem]
  have hne : ¬(classifyApiError e = "") := by
    unfold classifyApiError
    split <;> decide
  rw [hstep]
  simp only [resolveDetection]
  rw [if_neg hne, hvm]
  refine ⟨rfl, trivial, trivial, trivial, trivial, trivial, trivial, rfl, ?_, ?_, by decide⟩
  · intro h
    unfold classifyApiError
    rw [if_pos h]
  · intro h
    unfold classifyApiError
    rw [if_neg (by rw [h]; exact Bool.false_ne_true)]

def c6WitState : ReaderState :=
  { initState with bookType := .cbz, pageIds := ["p1"], busy := true, pending := ["p1"] }

theorem c6_witness :
    (step c6WitState (.resolve "p1" (outcomeOfResponse (.apiError "status 429")))).errorMsg =
      some rateLimitMessage := by
  have h := c6_failure_classified_and_state_preserved c6WitState "p1" "status 429"
    (by decide) rfl
  rw [h.2.2.2.2.2.2.2.1, h.2.2.2.2.2.2.2.2.1 (by decide)]

/-- Claim C7, amended: for a page whose identity has a cache entry,
detectPanels issues no detection request (the request log and the set of
in-flight requests are unchanged), synchronously applies the cached list
with viewMode panel and panelIndex 0, and is idempotent, so a repeat call
for the same cached page also issues nothing. The unconditional per-page
at-most-one-request bound of the original claim fails after a detection
failure, which caches nothing (see the counterexample). -/
theorem c7_cache_hit_issues_no_request (s : ReaderState) (pid : String)
    (ps : List Panel) (hbt : s.bookType = BookType.cbz) (hne : s.pageIds ≠ [])
    (hget : s.pageIds.get? s.pageIndex = some pid)
    (hc : cacheLookup s.cache pid = some ps) :
    handleDetectPanels s =
      { s with panels := ps, viewMode := ViewMode.panel, panelIndex := 0 } ∧
    (handleDetectPanels s).requests = s.requests ∧
    (handleDetectPanels s).pending = s.pending ∧
    handleDetectPanels (handleDetectPanels s) = handleDetectPanels s := by
  have hcond : ¬(s.bookType ≠ BookType.cbz ∨ s.pageIds.length = 0) := by
    simp [hbt, List.length_eq_zero, hne]
  have key : handleDetectPanels s =
      { s with panels := ps, viewMode := ViewMode.panel, panelIndex := 0 } := by
    unfold handleDetectPanels
    rw [if_neg hcond, hget]
    simp only [hc]
  have key2 : handleDetectPanels
        { s with panels := ps, viewMode := ViewMode.panel, panelIndex := 0 } =
      { s with panels := ps, viewMode := ViewMode.panel, panelIndex := 0 } := by
    unfold handleDetectPanels
    rw [if_neg hcond, hget]
    simp only [hc]
  exact ⟨key, by rw [key], by rw [key], by rw [key, key2]⟩

def c7WitState : ReaderState :=
  { initState with bookType := .cbz, pageIds := ["p1"], cache := [("p1", fallbackPanel)] }

theorem c7_amended_witness :
    (handleDetectPanels c7WitState).requests = c7WitState.requests :=
  (c7_cache_hit_issues_no_request c7WitState "p1" fallbackPanel rfl (by decide)
    rfl (by decide)).2.1

/-- Claim C8: in page view, goToNext at the last page and goToPrev at the
first page leave the whole state unchanged; in panel view on a cbz book, at
the last panel of a page that is not the last page, goToNext advances the
page by one and resets panelIndex to -1 and viewMode to page. -/
theorem c8_navigation_boundaries :
    (∀ s : ReaderState, s.viewMode = ViewMode.page → s.pageIndex + 1 = totalPages s →
      goToNext s = s) ∧
    (∀ s : ReaderState, s.viewMode = ViewMode.page → s.pageIndex = 0 →
      goToPrev s = s) ∧
    (∀ s : ReaderState, s.bookType = BookType.cbz → s.viewMode = ViewMode.panel →
      s.panelIndex = (s.panels.length : ℤ) - 1 → s.pageIndex + 1 < totalPages s →
      goToNext s = { s with pageIndex := s.pageIndex + 1, panels := [],
                            panelIndex := -1, viewMode := ViewMode.page }) := by
  refine ⟨?_, ?_, ?_⟩
  · intro s hv hp
    have h1 : ¬(s.viewMode = ViewMode.panel ∧ s.panelIndex < (s.panels.length : ℤ) - 1) := by
      simp [hv]
    have h2 : ¬((s.pageIndex : ℤ) < (totalPages s : ℤ) - 1) := by omega
    unfold goToNext
    rw [if_neg h1, if_neg h2]
  · intro s hv hp
    have h1 : ¬(s.viewMode = ViewMode.panel ∧ 0 < s.panelIndex) := by
      simp [hv]
    have h2 : ¬(0 < s.pageIndex) := by omega
    unfold goToPrev
    rw [if_neg h1, if_neg h2]
  · intro s hbt hv hpi hpage
    have h1 : ¬(s.viewMode = ViewMode.panel ∧ s.panelIndex < (s.panels.length : ℤ) - 1) := by
      rw [hpi]
      simp
    have h2 : (s.pageIndex : ℤ) < (totalPages s : ℤ) - 1 := by omega
    unfold goToNext
    rw [if_neg h1, if_pos h2, hbt]
    simp

def c8State : ReaderState :=
  { initState with bookType := .cbz, pageIds := ["x1", "x2"], pageIndex := 1 }

theorem c8_witness : goToNext c8State = c8State :=
  c8_navigation_boundaries.1 c8State rfl (by decide)

/-- Bounds of one zoom step: the clamped value always lands in the zoom
interval. -/
theorem handleZoom_zoom_bounds (d : ZoomDir) (s : ReaderState) :
    MIN_ZOOM ≤ (handleZoom d s).zoom ∧ (handleZoom d s).zoom ≤ MAX_ZOOM := by
  constructor
  · exact le_max_left _ _
  · refine max_le ?_ (min_le_left _ _)
    norm_num [MIN_ZOOM, MAX_ZOOM]

/-- Bounds along any sequence of zoom steps. -/
theorem foldZoom_bounds (ds : List ZoomDir) (s : ReaderState)
    (h1 : MIN_ZOOM ≤ s.zoom) (h2 : s.zoom ≤ MAX_ZOOM) :
    MIN_ZOOM ≤ (ds.foldl (fun t e => handleZoom e t) s).zoom ∧
    (ds.foldl (fun t e => handleZoom e t) s).zoom ≤ MAX_ZOOM := by
  induction ds generalizing s with
  | nil => exact ⟨h1, h2⟩
  | cons d ds ih =>
    simp only [List.foldl_cons]
    exact ih (handleZoom d s) (handleZoom_zoom_bounds d s).1 (handleZoom_zoom_bounds d s).2

/-- Claim C9: handleZoom moves the zoom by exactly one 0.25 step in the
requested direction, clamps the result into the zoom interval, and turns
fit off; consequently the zoom never leaves the interval under any sequence
of zoom steps. -/
theorem c9_zoom_step_clamped (s : ReaderState) (d : ZoomDir)
    (h1 : MIN_ZOOM ≤ s.zoom) (h2 : s.zoom ≤ MAX_ZOOM) :
    (handleZoom d s).fit = false ∧
    (handleZoom d s).zoom = max MIN_ZOOM (min MAX_ZOOM
      (if d = ZoomDir.inDir then s.zoom + ZOOM_STEP else s.zoom - ZOOM_STEP)) ∧
    MIN_ZOOM ≤ (handleZoom d s).zoom ∧ (handleZoom d s).zoom ≤ MAX_ZOOM ∧
    ∀ ds : List ZoomDir,
      MIN_ZOOM ≤ (ds.foldl (fun t e => handleZoom e t) s).zoom ∧
      (ds.foldl (fun t e => handleZoom e t) s).zoom ≤ MAX_ZOOM :=
  ⟨rfl, rfl, (handleZoom_zoom_bounds d s).1, (handleZoom_zoom_bounds d s).2,
    fun ds => foldZoom_bounds ds s h1 h2⟩

theorem min_zoom_le_one : MIN_ZOOM ≤ (1 : ℚ) := by norm_num [MIN_ZOOM]

theorem one_le_max_zoom : (1 : ℚ) ≤ MAX_ZOOM := by norm_num [MAX_ZOOM]

def c9State : ReaderState := { initState with bookType := .pdf, docPages := 3 }

theorem c9_witness : (handleZoom ZoomDir.inDir c9State).fit = false :=
  (c9_zoom_step_clamped c9State ZoomDir.inDir min_zoom_le_one one_le_max_zoom).1

/-- Claim C5, counterexample: a response body that is not well-formed JSON
does not yield the fallback panel — JSON.parse throws, the catch rethrows,
and the call fails with the generic message. -/
theorem c5_counterexample :
    getPanelsForPage (.body .malformed) = .error genericFailureMessage ∧
    getPanelsForPage (.body .malformed) ≠ .ok fallbackPanel := by
  refine ⟨rfl, ?_⟩
  intro h
  exact Except.noConfusion h

/-- The projection succeeds exactly on the elements the filter keeps. -/
theorem extractPanel_isSome (j : Json) : (extractPanel j).isSome = validPanelElem j := by
  cases j <;>
    simp only [extractPanel, validPanelElem, isNumField, Option.isSome_none]
  case jobj fields =>
    cases hx : getNum (lookupField fields "x") <;>
      cases hy : getNum (lookupField fields "y") <;>
      cases hw : getNum (lookupField fields "width") <;>
      cases hh : getNum (lookupField fields "height") <;>
      simp [hx, hy, hw, hh]

/-- Filtering by the validity predicate first does not change the projected
list: the projection already drops exactly the invalid elements. -/
theorem filterMap_extract_eq_filter (xs : List Json) :
    (xs.filter (fun e => validPanelElem e)).filterMap extractPanel =
      xs.filterMap extractPanel := by
  induction xs with
  | nil => rfl
  | cons a t ih =>
    cases h : validPanelElem a
    · have hnone : extractPanel a = none := by
        have hs := extractPanel_isSome a
        rw [h] at hs
        exact Option.not_isSome_iff_eq_none.mp (by rw [hs]; exact Bool.false_ne_true)
      simp [List.filter_cons, h, List.filterMap_cons, hnone, ih]
    · have hsome : (extractPanel a).isSome = true := by rw [extractPanel_isSome, h]
      obtain ⟨p, hp⟩ := Option.isSome_iff_exists.mp hsome
      simp [List.filter_cons, h, List.filterMap_cons, hp, ih]

/-- Claim C5, amended: an empty trimmed body, a parsed non-array value, an
empty array, and a null-free array with no valid element all yield exactly
the single fallback panel; a null-free array with at least one valid element
yields exactly the projections of its valid elements in their original
order (a subsequence of the array); but a body that fails JSON.parse, or an
array containing a null element (property access throws), fails with the
generic error instead of the fallback; and every successful return is
non-empty. -/
theorem c5_response_validation :
    (getPanelsForPage (.body .blank) = .ok fallbackPanel) ∧
    (getPanelsForPage (.body .malformed) = .error genericFailureMessage) ∧
    (∀ j : Json, (∀ xs, j ≠ .jarr xs) →
      getPanelsForPage (.body (.parsed j)) = .ok fallbackPanel) ∧
    (getPanelsForPage (.body (.parsed (.jarr []))) = .ok fallbackPanel) ∧
    (∀ xs : List Json, xs ≠ [] → xs.any isNull = true →
      getPanelsForPage (.body (.parsed (.jarr xs))) = .error genericFailureMessage) ∧
    (∀ xs : List Json, xs ≠ [] → xs.any isNull = false →
      getPanelsForPage (.body (.parsed (.jarr xs))) =
        .ok (if 0 < (xs.filterMap extractPanel).length then xs.filterMap extractPanel
             else fallbackPanel) ∧
      xs.filterMap extractPanel =
        (xs.filter (fun e => validPanelElem e)).filterMap extractPanel ∧
      (xs.filter (fun e => validPanelElem e)).Sublist xs) ∧
    (∀ r ps, getPanelsForPage r = .ok ps → ps ≠ []) := by
  refine ⟨rfl, rfl, ?_, rfl, ?_, ?_, ?_⟩
  · intro j hj
    cases j
    case jarr xs => exact absurd rfl (hj xs)
    all_goals rfl
  · intro xs hne hnull
    have he : xs.isEmpty = false := by
      cases xs
      · exact absurd rfl hne
      · rfl
    simp [getPanelsForPage, he, hnull]
  · intro xs hne hnull
    have he : xs.isEmpty = false := by
      cases xs
      · exact absurd rfl hne
      · rfl
    refine ⟨by simp [getPanelsForPage, he, hnull], ?_, List.filter_sublist xs⟩
    exact (filterMap_extract_eq_filter xs).symm
  · intro r ps h
    cases r with
    | apiError e => exact Except.noConfusion h
    | body b =>
      cases b with
      | blank =>
        injection h with h
        rw [← h]
        simp [fallbackPanel]
      | malformed => exact Except.noConfusion h
      | parsed j =>
        cases j
        case jarr xs =>
          by_cases he : xs.isEmpty
          · rw [getPanelsForPage.eq_def] at h
            simp only [he, if_true] at h
            injection h with h
            rw [← h]
            simp [fallbackPanel]
          · by_cases hn : xs.any isNull
            · rw [getPanelsForPage.eq_def] at h
              simp only [he, hn, if_false, if_true, Bool.not_eq_true] at h
              exact Except.noConfusion h
            · rw [getPanelsForPage.eq_def] at h
              simp only [he, hn, if_false, Bool.not_eq_true] at h
              by_cases hv : 0 < (xs.filterMap extractPanel).length
              · rw [if_pos hv] at h
                injection h with h
                rw [← h]
                exact List.length_pos.mp hv
              · rw [if_neg hv] at h
                injection h with h
                rw [← h]
                simp [fallbackPanel]
        all_goals
          injection h with h
          rw [← h]
          simp [fallbackPanel]

/-- Witness for the amended C5 at a concrete array with one invalid
element and no valid ones: the fallback panel is returned. -/
theorem c5_witness :
    getPanelsForPage (.body (.parsed (.jarr [Json.jstr "oops"]))) = .ok fallbackPanel := by
  have h := (c5_response_validation.2.2.2.2.2.1 [Json.jstr "oops"]
    (by simp) rfl).1
  exact h.trans rfl

/-! ## Claim C10: archive decoding versus the persisted page count -/

/-- Pages whose image fails to decode are exactly the ones dropped. -/
theorem filterMap_decodes (l : List ZipEntry) :
    l.filterMap (fun e => if e.decodes then some (toComicPage e) else none) =
      (l.filter (fun e => e.decodes)).map toComicPage := by
  induction l with
  | nil => rfl
  | cons a t ih =>
    cases h : a.decodes <;>
      simp [List.filterMap_cons, List.filter_cons, h, ih]

/-- A filter that drops at least one member is strictly shorter. -/
theorem length_filter_lt_of_mem {α : Type} (p : α → Bool) (l : List α) (a : α)
    (ha : a ∈ l) (hpa : p a = false) : (l.filter p).length < l.length := by
  induction l with
  | nil => cases ha
  | cons b t ih =>
    rcases List.mem_cons.mp ha with hb | ht
    · rw [← hb]
      simp only [List.filter_cons, hpa, if_false, Bool.false_eq_true, List.length_cons]
      exact Nat.lt_succ_of_le (List.length_filter_le p t)
    · cases hpb : p b <;>
        simp only [List.filter_cons, hpb, if_true, if_false, Bool.false_eq_true,
          Bool.true_eq_false, List.length_cons]
      · exact Nat.lt_succ_of_lt (ih ht)
      · exact Nat.succ_lt_succ (ih ht)

/-- Claim C10: getComicPages keeps exactly the decodable entries of the
sorted image list, in that order (the page ids form a subsequence of the
sorted entry names), while the library item of the same archive counts all
matching image entries without decoding them; so the session page count is
at most the persisted totalPages, and strictly below it whenever some image
entry fails to decode. -/
theorem c10_failed_decodes_shrink_pages (f : ArchiveFile) (item : LibraryItem)
    (hit : createLibraryItem f = some item) :
    getComicPages f.entries =
      ((getSortedImageFiles f.entries).filter (fun e => e.decodes)).map toComicPage ∧
    ((getComicPages f.entries).map ComicPage.id).Sublist
      ((getSortedImageFiles f.entries).map ZipEntry.name) ∧
    item.totalPages = (getSortedImageFiles f.entries).length ∧
    (getComicPages f.entries).length ≤ item.totalPages ∧
    (∀ e, e ∈ getSortedImageFiles f.entries → e.decodes = false →
      (getComicPages f.entries).length < item.totalPages) := by
  have hpages : getComicPages f.entries =
      ((getSortedImageFiles f.entries).filter (fun e => e.decodes)).map toComicPage := by
    unfold getComicPages
    exact filterMap_decodes (getSortedImageFiles f.entries)
  have htot : item.totalPages = (getSortedImageFiles f.entries).length := by
    unfold createLibraryItem at hit
    split at hit
    · injection hit with h
      rw [← h]
    · exact Option.noConfusion hit
  refine ⟨hpages, ?_, htot, ?_, ?_⟩
  · rw [hpages, List.map_map]
    have hmap : (ComicPage.id ∘ toComicPage) = ZipEntry.name := by
      funext e
      rfl
    rw [hmap]
    exact List.Sublist.map ZipEntry.name (List.filter_sublist _)
  · rw [hpages, htot, List.length_map]
    exact List.length_filter_le _ _
  · intro e he hde
    rw [hpages, htot, List.length_map]
    exact length_filter_lt_of_mem _ _ e he hde

def c10File : ArchiveFile :=
  { name := "vol1.cbz", size := 7,
    entries := [ ⟨"page10.jpg", false, true, 5, 8⟩,
                 ⟨"page2.jpg", false, false, 4, 6⟩,
                 ⟨"notes.txt", false, true, 0, 0⟩,
                 ⟨"art", true, true, 0, 0⟩ ] }

def c10Item : LibraryItem := { id := "vol1.cbz-7", title := "vol1", totalPages := 2 }

/-- Witness for C10 at a concrete archive: of its two image entries one
fails to decode, so the session has fewer pages than the library record. -/
theorem c10_witness : (getComicPages c10File.entries).length < c10Item.totalPages :=
  (c10_failed_decodes_shrink_pages c10File c10Item (by decide)).2.2.2.2
    ⟨"page2.jpg", false, false, 4, 6⟩ (by decide) rfl

end Reader
